import Mathlib

/-!
Shallow embedding of the trivia bot team registry, permission gate and
command dispatch engine (src/main.rs).  Machine integers are modelled as
`Int`/`Nat`; the `i64` team score wraps modulo `2 ^ 64` at the single
mutation site (`team.score += adjust`), mirroring the truncation of
two-complement arithmetic.  External platform calls (role-membership lookup, role edits)
are oracles passed in through `Env`.  Every `.expect`/`.unwrap` site of the
source is modelled as an `Outcome.crash` carrying the panic message of the source,
so that aborts of the handling task are observable in the model.
-/

/-- The fixed permission-denied response (src/main.rs line 32). -/
def PERMISSION_DENIED : String :=
  "You do not have permission to use this command and it has been reported to the local authorities. Spend your last moments repenting."

/-- A platform permission group (serenity `Role`); only the fields the
program reads are modelled. -/
structure Role where
  id : Nat
  name : String
  colour : Nat
deriving DecidableEq

/-- One competing team (src/main.rs lines 43-47): the bound permission
group and an `i64` score. -/
structure Team where
  role : Role
  score : Int
deriving DecidableEq

/-- The team registry (src/main.rs lines 39-41): a map from channel id to
team, modelled as an association list with `HashMap` lookup semantics. -/
structure Teams where
  teams : List (Nat × Team)
deriving DecidableEq

/-- `HashMap::get` on the association list: the first entry with the key. -/
def lookupTeam : List (Nat × Team) → Nat → Option Team
  | [], _ => none
  | (k, v) :: rest, c => if k = c then some v else lookupTeam rest c

/-- `HashMap::get_mut` followed by in-place mutation: replace the first
entry bound to the key. -/
def replaceFirst : List (Nat × Team) → Nat → Team → List (Nat × Team)
  | [], _, _ => []
  | (k, v) :: rest, c, tm => if k = c then (k, tm) :: rest else (k, v) :: replaceFirst rest c tm

/-- `Teams::new` (src/main.rs lines 50-54). -/
def Teams.new : Teams := ⟨[]⟩

/-- `Teams::create_team` (src/main.rs lines 56-61): `entry(channel).or_insert`
inserts a team with score 0 only when the channel is unbound. -/
def Teams.create_team (t : Teams) (channel : Nat) (role : Role) : Teams :=
  match lookupTeam t.teams channel with
  | some _ => t
  | none => ⟨(channel, { role := role, score := 0 }) :: t.teams⟩

/-- `Teams::get_team` (src/main.rs lines 63-65): a cloned snapshot. -/
def Teams.get_team (t : Teams) (channel : Nat) : Option Team :=
  lookupTeam t.teams channel

/-- Registry well-formedness: at most one team per channel. -/
def Teams.wf (t : Teams) : Prop := (t.teams.map Prod.fst).Nodup

/-- Wrap of an `i64` addition result into
`[-2 ^ 63, 2 ^ 63)`. -/
def wrap64 (x : Int) : Int :=
  (x + 9223372036854775808) % 18446744073709551616 - 9223372036854775808

/-- The atomic critical section of `team score adjust`
(src/main.rs lines 223-242): under the registry mutex, look up the team
bound to the channel, add the delta to its `i64` score and store the
result; an unbound channel leaves the registry untouched and reports
absent. -/
def Teams.adjust_score (t : Teams) (c : Nat) (d : Int) : Teams × Option Team :=
  match lookupTeam t.teams c with
  | some team =>
    let team' : Team := { team with score := wrap64 (team.score + d) }
    (⟨replaceFirst t.teams c team'⟩, some team')
  | none => (t, none)

/-- A serialization of concurrent `adjustScore` calls on one channel: the
mutex held across each read-modify-write (no await inside the critical
section) makes every call one atomic step, so an interleaving is a
sequential order of the deltas. -/
def runAdjusts (c : Nat) : Teams → List Int → Teams
  | t, [] => t
  | t, d :: ds => runAdjusts c (Teams.adjust_score t c d).1 ds

/-- The interaction kinds the program distinguishes (serenity
`InteractionType`); only `ApplicationCommand` is handled. -/
inductive InteractionType where
  | ping
  | applicationCommand
  | messageComponent
deriving DecidableEq

/-- The resolved argument values the program matches on (serenity
`ApplicationCommandInteractionDataOptionValue`). -/
inductive OptValue where
  | str (s : String)
  | int (i : Int)
  | user (tag : String) (id : Nat)
  | channel (id : Nat)
  | role (r : Role)
deriving DecidableEq

/-- A command option node: a name, an optional resolved value and nested
sub-options. -/
inductive Opt where
  | mk (name : String) (resolved : Option OptValue) (options : List Opt)

def Opt.name : Opt → String
  | .mk n _ _ => n

def Opt.resolved : Opt → Option OptValue
  | .mk _ r _ => r

def Opt.options : Opt → List Opt
  | .mk _ _ os => os

/-- The structured invocation payload (`interaction.data`). -/
structure InteractionData where
  name : String
  options : List Opt

/-- The parts of a serenity `Interaction` the handler reads. -/
structure Interaction where
  kind : InteractionType
  data : Option InteractionData
  channel_id : Option Nat
  guild_id : Option Nat
  member : Option Unit

/-- Oracles for the external platform calls made while handling one
invocation: the answer of the `has_role` membership query (`none` models
an `Err` result, which the source `.expect`s), and whether `role.edit`
succeeds, with the debug text of the error when it does not. -/
structure Env where
  hasRole : Option Bool
  editOk : Bool
  editErr : String

/-- What handling one invocation produces: a response string, a panic of
the handling task (an `.expect`/`.unwrap`/index failure, with the message
from the source), or no response at all (non-command interactions). -/
inductive Outcome where
  | response (content : String)
  | crash (msg : String)
  | noResponse
deriving DecidableEq

/-- `Vec::get`-style positional access used for `.options.get(i)`. -/
def getIdx {α : Type} : List α → Nat → Option α
  | [], _ => none
  | a :: _, 0 => some a
  | _ :: rest, n + 1 => getIdx rest n

/-- The `rename` arm (src/main.rs lines 109-138). -/
def handle_rename (eo : Bool) (ee : String) (t : Teams) (channel_id : Option Nat)
    (subOptions : List Opt) : Outcome :=
  match getIdx subOptions 0 with
  | none => .crash "Expected new team name"
  | some o =>
    match o.resolved with
    | none => .crash "Expected string"
    | some name_arg =>
      match name_arg, channel_id with
      | .str new_name, some cid =>
        match t.get_team cid with
        | some _team =>
          if eo then .response ("Team name is now " ++ new_name)
          else .response ("Failed to rename team: " ++ ee)
        | none => .response "Failed to rename team, could not find team"
      | _, _ => .response "Failed to rename team, invalid argument or channel id"

/-- The component-collecting loop of `recolor` (src/main.rs lines 140-145):
push every resolved integer, panicking on an unresolved option. -/
def collectComponents : List Opt → Except String (List Int)
  | [] => .ok []
  | o :: rest =>
    match o.resolved with
    | none => .error "Expected integer"
    | some v =>
      match v with
      | .int i =>
        match collectComponents rest with
        | .ok l => .ok (i :: l)
        | .error m => .error m
      | _ => collectComponents rest

/-- Rust `as u8`: the low 8 bits of an `i64`. -/
def asU8 (i : Int) : Nat := (i % 256).toNat

/-- The `recolor` arm (src/main.rs lines 139-173): the three collected
integers are consumed positionally as red, green, blue. -/
def handle_recolor (eo : Bool) (ee : String) (t : Teams) (channel_id : Option Nat)
    (subOptions : List Opt) : Outcome :=
  match collectComponents subOptions with
  | .error m => .crash m
  | .ok components =>
    match getIdx components 0, getIdx components 1, getIdx components 2 with
    | some c0, some c1, some c2 =>
      match channel_id with
      | some cid =>
        match t.get_team cid with
        | some _team =>
          if eo then
            .response ("Team color is now (" ++ toString (asU8 c0) ++ ", "
              ++ toString (asU8 c1) ++ ", " ++ toString (asU8 c2) ++ ")")
          else .response ("Failed to rename team: " ++ ee)
        | none => .response "Failed to rename team, could not find team"
      | none => .response "Failed to rename team, invalid argument or channel id"
    | _, _, _ => .crash "index out of bounds"

/-- The `create` arm (src/main.rs lines 174-199): the first statement
`self.host_role.lock().unwrap().unwrap()` panics when the host role was
never resolved; otherwise the host-role membership of the member gates the
registry insertion. -/
def handle_create (host_role : Option Nat) (hasRole : Option Bool) (member : Option Unit)
    (guild_id : Option Nat) (t : Teams) (subOptions : List Opt) : Teams × Outcome :=
  match host_role with
  | none => (t, .crash "called Option::unwrap() on a None value")
  | some _hr =>
    match member with
    | some _member =>
      match guild_id with
      | none => (t, .crash "Expected guild id")
      | some _g =>
        match hasRole with
        | none => (t, .crash "Expected bool")
        | some true =>
          match getIdx subOptions 0 with
          | none => (t, .crash "Expected channel id")
          | some ch =>
            match ch.resolved with
            | none => (t, .crash "Expected Channel")
            | some channel_arg =>
              match getIdx subOptions 1 with
              | none => (t, .crash "Expected role id")
              | some ro =>
                match ro.resolved with
                | none => (t, .crash "Expected Role")
                | some role_arg =>
                  match channel_arg, role_arg with
                  | .channel pcid, .role role =>
                    (t.create_team pcid role, .response "Created new team")
                  | _, _ => (t, .response "Failed to create team, unknown channel or role")
        | some false => (t, .response PERMISSION_DENIED)
    | none => (t, .response "No member for interaction")

/-- The `score adjust` arm (src/main.rs lines 216-249): host-role unwrap,
membership gate, then the atomic read-add-write on the bound team. -/
def handle_adjust (host_role : Option Nat) (hasRole : Option Bool) (member : Option Unit)
    (guild_id : Option Nat) (channel_id : Option Nat) (t : Teams)
    (scoreOptions : List Opt) : Teams × Outcome :=
  match host_role with
  | none => (t, .crash "called Option::unwrap() on a None value")
  | some _hr =>
    match member with
    | some _member =>
      match guild_id with
      | none => (t, .crash "Expected guild id")
      | some _g =>
        match hasRole with
        | none => (t, .crash "Expected bool")
        | some true =>
          match channel_id with
          | none => (t, .crash "Expected channel id")
          | some cid =>
            match lookupTeam t.teams cid with
            | some team =>
              match getIdx scoreOptions 0 with
              | none => (t, .crash "Expected adjustment amount")
              | some a =>
                match a.resolved with
                | none => (t, .crash "Expected integer")
                | some adjust_arg =>
                  match adjust_arg with
                  | .int adjust =>
                    let new_score := wrap64 (team.score + adjust)
                    (⟨replaceFirst t.teams cid { team with score := new_score }⟩,
                      .response ("Team score adjusted by " ++ toString adjust
                        ++ ", score is now " ++ toString new_score ++ " in total"))
                  | _ => (t, .response "Adjustment wrong type, could not adjust")
            | none => (t, .response "Missing team, could not adjust")
        | some false => (t, .response PERMISSION_DENIED)
    | none => (t, .response "No member for interaction")

/-- The `score list` arm (src/main.rs lines 203-215). -/
def handle_score_list (t : Teams) : Outcome :=
  let score_list := t.teams.map (fun p => p.2.role.name ++ ": " ++ toString p.2.score)
  if score_list.length = 0 then .response "No teams created"
  else .response (String.intercalate ", " score_list)

/-- The `id` arm (src/main.rs lines 89-105). -/
def handle_id (options : List Opt) : Outcome :=
  match getIdx options 0 with
  | none => .crash "Expected user option"
  | some opt =>
    match opt.resolved with
    | none => .crash "Expected user object"
    | some v =>
      match v with
      | .user tag uid => .response (tag ++ "\u0027s id is " ++ toString uid)
      | _ => .response "Please provide a valid user"

/-- The dispatch engine `interaction_create` (src/main.rs lines 84-273):
exact-name routing through command, subcommand and sub-subcommand, with
each unrecognized name degrading to a descriptive response string. -/
def interaction_create (env : Env) (host_role : Option Nat) (t : Teams)
    (i : Interaction) : Teams × Outcome :=
  if i.kind = InteractionType.applicationCommand then
    match i.data with
    | none => (t, .noResponse)
    | some data =>
      if data.name = "ping" then (t, .response "pong")
      else if data.name = "id" then (t, handle_id data.options)
      else if data.name = "team" then
        match getIdx data.options 0 with
        | none => (t, .crash "Expected sub option")
        | some suboption =>
          if suboption.name = "rename" then
            (t, handle_rename env.editOk env.editErr t i.channel_id suboption.options)
          else if suboption.name = "recolor" then
            (t, handle_recolor env.editOk env.editErr t i.channel_id suboption.options)
          else if suboption.name = "create" then
            handle_create host_role env.hasRole i.member i.guild_id t suboption.options
          else if suboption.name = "score" then
            match getIdx suboption.options 0 with
            | none => (t, .crash "Expected sub-sub option")
            | some score_options =>
              if score_options.name = "list" then (t, handle_score_list t)
              else if score_options.name = "adjust" then
                handle_adjust host_role env.hasRole i.member i.guild_id i.channel_id t
                  score_options.options
              else (t, .response "Invalid team->score suboption")
          else (t, .response "Invalid team suboption")
      else (t, .response "Invalid command")
  else (t, .noResponse)

/-- The host-role scan of the `ready` handler (src/main.rs lines 400-408):
iterate the role list of the guild; every role whose name is exactly "Host"
overwrites the shared `host_role` slot, so the last match in iteration
order wins and no match leaves the slot unchanged. -/
def ready_scan_host (roles : List (Nat × Role)) (host_role : Option Nat) : Option Nat :=
  roles.foldl (fun acc p => if p.2.name == "Host" then some p.2.id else acc) host_role

/-- Follows the words of the spec for the Host-Role Resolver: record the first
group whose display name equals exactly "Host"; leave the slot unchanged
when no such group exists. -/
def specFirstHost (roles : List (Nat × Role)) (host_role : Option Nat) : Option Nat :=
  match roles.find? (fun p => p.2.name == "Host") with
  | some p => some p.2.id
  | none => host_role

/-- A `team score adjust` invocation on the given channel, in a guild,
with a present member and a well-typed integer amount. -/
def adjustInteraction (c gid : Nat) (d : Int) : Interaction :=
  ⟨.applicationCommand,
    some ⟨"team", [Opt.mk "score" none [Opt.mk "adjust" none
      [Opt.mk "amount" (some (.int d)) []]]]⟩,
    some c, some gid, some ()⟩

/-- A `team create` invocation binding the given channel to the given
group, in a guild, with a present member and well-typed arguments. -/
def createInteraction (c : Nat) (g : Role) (gid : Nat) : Interaction :=
  ⟨.applicationCommand,
    some ⟨"team", [Opt.mk "create" none
      [Opt.mk "channel" (some (.channel c)) [], Opt.mk "role" (some (.role g)) []]]⟩,
    some c, some gid, some ()⟩

/-- Sample permission groups for concrete evaluations. -/
def redRole : Role := ⟨10, "Red Team", 0⟩

def blueRole : Role := ⟨11, "Blue Team", 0⟩

theorem wrap64_eq_self (x : Int)
    (h1 : -9223372036854775808 ≤ x) (h2 : x < 9223372036854775808) :
    wrap64 x = x := by
  unfold wrap64
  omega

theorem wrap64_bounds (x : Int) :
    -9223372036854775808 ≤ wrap64 x ∧ wrap64 x < 9223372036854775808 := by
  unfold wrap64
  omega

theorem wrap64_add_left (a b : Int) : wrap64 (wrap64 a + b) = wrap64 (a + b) := by
  unfold wrap64
  omega

theorem lookupTeam_replaceFirst_self (l : List (Nat × Team)) (c : Nat) (tm tm' : Team)
    (h : lookupTeam l c = some tm) :
    lookupTeam (replaceFirst l c tm') c = some tm' := by
  induction l with
  | nil => simp [lookupTeam] at h
  | cons p rest ih =>
    obtain ⟨k, v⟩ := p
    by_cases hk : k = c
    · subst hk
      simp [lookupTeam, replaceFirst]
    · simp only [lookupTeam, replaceFirst, if_neg hk] at h ⊢
      exact ih h

theorem lookupTeam_none_not_mem (l : List (Nat × Team)) (c : Nat)
    (h : lookupTeam l c = none) : c ∉ l.map Prod.fst := by
  induction l with
  | nil => simp
  | cons p rest ih =>
    obtain ⟨k, v⟩ := p
    by_cases hk : k = c
    · subst hk
      simp [lookupTeam] at h
    · simp only [lookupTeam, if_neg hk] at h
      simp only [List.map_cons, List.mem_cons]
      rintro (rfl | hc)
      · exact hk rfl
      · exact ih h hc

theorem create_team_bound (t : Teams) (c : Nat) (g : Role) (tm : Team)
    (h : lookupTeam t.teams c = some tm) : Teams.create_team t c g = t := by
  unfold Teams.create_team
  rw [h]

theorem create_team_fresh (t : Teams) (c : Nat) (g : Role)
    (h : lookupTeam t.teams c = none) :
    Teams.create_team t c g = ⟨(c, { role := g, score := 0 }) :: t.teams⟩ := by
  unfold Teams.create_team
  rw [h]

theorem lookupTeam_create_self (t : Teams) (c : Nat) (g : Role) :
    ∃ tm, lookupTeam (Teams.create_team t c g).teams c = some tm := by
  cases h : lookupTeam t.teams c with
  | none =>
    refine ⟨{ role := g, score := 0 }, ?_⟩
    rw [create_team_fresh t c g h]
    simp [lookupTeam]
  | some tm =>
    refine ⟨tm, ?_⟩
    rw [create_team_bound t c g tm h]
    exact h

theorem adjust_score_lookup (t : Teams) (c : Nat) (d : Int) (tm : Team)
    (h : lookupTeam t.teams c = some tm) :
    lookupTeam ((Teams.adjust_score t c d).1.teams) c
      = some { tm with score := wrap64 (tm.score + d) } := by
  unfold Teams.adjust_score
  simp only [h]
  exact lookupTeam_replaceFirst_self t.teams c tm _ h

theorem runAdjusts_lookup (c : Nat) (ds : List Int) :
    ∀ (t : Teams) (tm : Team), lookupTeam t.teams c = some tm →
      -9223372036854775808 ≤ tm.score → tm.score < 9223372036854775808 →
      (lookupTeam ((runAdjusts c t ds).teams) c).map Team.score
        = some (wrap64 (tm.score + ds.sum)) := by
  induction ds with
  | nil =>
    intro t tm h h1 h2
    simp [runAdjusts, h, wrap64_eq_self tm.score h1 h2]
  | cons d ds ih =>
    intro t tm h h1 h2
    have hstep := adjust_score_lookup t c d tm h
    have hrec := ih _ _ hstep (wrap64_bounds (tm.score + d)).1 (wrap64_bounds (tm.score + d)).2
    simp only [runAdjusts]
    rw [hrec]
    simp only [wrap64_add_left, List.sum_cons]
    rw [Int.add_assoc]

theorem string_data_append (a b : String) : (a ++ b).data = a.data ++ b.data := rfl

theorem head_append_left (a b : String) (c : Char) (h : a.data.head? = some c) :
    (a ++ b).data.head? = some c := by
  rw [string_data_append]
  cases hdata : a.data with
  | nil => rw [hdata] at h; exact absurd h (by simp)
  | cons x xs =>
    rw [hdata] at h
    simpa using h

theorem ne_pd_of_head (s : String) (c : Char) (h : s.data.head? = some c)
    (hc : c ≠ 'Y') : s ≠ PERMISSION_DENIED := by
  intro he
  subst he
  rw [show PERMISSION_DENIED.data.head? = some 'Y' from rfl] at h
  exact hc (Option.some.inj h).symm

theorem append_ne_pd (a b : String) (c : Char) (ha : a.data.head? = some c)
    (hc : c ≠ 'Y') : a ++ b ≠ PERMISSION_DENIED :=
  ne_pd_of_head (a ++ b) c (head_append_left a b c ha) hc

theorem handle_rename_ne_pd (eo : Bool) (ee : String) (t : Teams) (chan : Option Nat)
    (os : List Opt) (s : String)
    (h : handle_rename eo ee t chan os = Outcome.response s) : s ≠ PERMISSION_DENIED := by
  unfold handle_rename at h
  split at h
  · exact Outcome.noConfusion h
  · split at h
    · exact Outcome.noConfusion h
    · split at h
      · split at h
        · split at h
          · injection h with h
            subst h
            exact append_ne_pd "Team name is now " _ 'T' rfl (by decide)
          · injection h with h
            subst h
            exact append_ne_pd "Failed to rename team: " _ 'F' rfl (by decide)
        · injection h with h
          subst h
          decide
      · injection h with h
        subst h
        decide

theorem handle_recolor_ne_pd (eo : Bool) (ee : String) (t : Teams) (chan : Option Nat)
    (os : List Opt) (s : String)
    (h : handle_recolor eo ee t chan os = Outcome.response s) : s ≠ PERMISSION_DENIED := by
  unfold handle_recolor at h
  split at h
  · exact Outcome.noConfusion h
  · split at h
    · split at h
      · split at h
        · split at h
          · injection h with h
            subst h
            refine ne_pd_of_head _ 'T' ?_ (by decide)
            exact head_append_left _ _ _ (head_append_left _ _ _ (head_append_left _ _ _
              (head_append_left _ _ _ (head_append_left _ _ _ rfl))))
          · injection h with h
            subst h
            exact append_ne_pd "Failed to rename team: " _ 'F' rfl (by decide)
        · injection h with h
          subst h
          decide
      · injection h with h
        subst h
        decide
    · exact Outcome.noConfusion h

theorem ready_scan_host_cons (p : Nat × Role) (rest : List (Nat × Role)) (hr : Option Nat) :
    ready_scan_host (p :: rest) hr =
      ready_scan_host rest (if p.2.name == "Host" then some p.2.id else hr) := rfl

theorem find_append_singleton {α : Type} (f : α → Bool) (l : List α) (a : α) :
    (l ++ [a]).find? f =
      match l.find? f with
      | some x => some x
      | none => if f a then some a else none := by
  induction l with
  | nil => cases hfa : f a <;> simp [List.find?, hfa]
  | cons b l ih => cases hb : f b <;> simp [List.find?, hb, ih]

/-- C9 (amended): on each community-ready/sync event the scan records the
last group in enumeration order whose display name equals exactly "Host"
(each match overwrites the slot, so with at most one group named "Host"
that group is recorded); when no group is named exactly "Host" the slot is
left unchanged. -/
theorem c9_amended (roles : List (Nat × Role)) (hr : Option Nat) :
    ready_scan_host roles hr =
      match roles.reverse.find? (fun q => q.2.name == "Host") with
      | some q => some q.2.id
      | none => hr := by
  induction roles generalizing hr with
  | nil => rfl
  | cons p rest ih =>
    rw [ready_scan_host_cons, ih, List.reverse_cons, find_append_singleton]
    cases hfind : rest.reverse.find? (fun q => q.2.name == "Host") with
    | some q => simp [hfind]
    | none =>
      simp only [hfind]
      cases hfp : (p.2.name == "Host") <;> simp [hfp]

/-- C9 (counterexample): with two groups named exactly "Host" in the
enumeration, the scan records the second (last) one, not the first as the
claim states. -/
theorem c9_counterexample :
    ready_scan_host [(1, ⟨1, "Host", 0⟩), (2, ⟨2, "Host", 0⟩)] none = some 2
    ∧ specFirstHost [(1, ⟨1, "Host", 0⟩), (2, ⟨2, "Host", 0⟩)] none = some 1
    ∧ (some 2 : Option Nat) ≠ some 1 := ⟨rfl, rfl, by decide⟩

/-- C9 (witness): a role list with no group named exactly "Host" leaves the
slot unchanged. -/
theorem c9_amended_witness :
    ready_scan_host [(1, ⟨1, "host", 0⟩), (2, ⟨2, "Judge", 0⟩)] none = none :=
  c9_amended [(1, ⟨1, "host", 0⟩), (2, ⟨2, "Judge", 0⟩)] none

/-- C1 (code bug): a `team create` or `team score adjust` invocation issued
while the host role was never resolved does not produce a response at all:
the statement `self.host_role.lock().unwrap().unwrap()` panics and aborts
the handling task (the registry is left unchanged only because the panic
precedes any mutation); there is no "not configured" response anywhere in
the code. -/
theorem c1_absent_host_config_crashes :
    interaction_create ⟨some true, true, ""⟩ none Teams.new (createInteraction 1 redRole 5) =
      (Teams.new, Outcome.crash "called Option::unwrap() on a None value")
    ∧ interaction_create ⟨some true, true, ""⟩ none Teams.new (adjustInteraction 1 5 3) =
      (Teams.new, Outcome.crash "called Option::unwrap() on a None value") := ⟨rfl, rfl⟩

/-- C2 (counterexample): the score is an `i64`, so two adjustments of
`2 ^ 63 - 1` and `1` from initial score `0` wrap to `-2 ^ 63` instead of
the claimed initial-plus-sum `2 ^ 63`. -/
theorem c2_counterexample :
    (lookupTeam ((runAdjusts 1 ⟨[(1, ⟨redRole, 0⟩)]⟩ [9223372036854775807, 1]).teams) 1).map
        Team.score = some (-9223372036854775808)
    ∧ some (-9223372036854775808 : Int) ≠ some ((0 : Int) + (9223372036854775807 + 1)) :=
  ⟨rfl, by decide⟩

/-- C2 (amended): every adjustment is one atomic critical section, so for
every serialization order of concurrent adjustments on a bound channel the
final score is the initial score plus the sum of all deltas reduced into
the `i64` range by two-complement wrap — equal to the exact sum whenever
that sum is in range (no lost updates). -/
theorem c2_amended (t : Teams) (c : Nat) (tm : Team) (ds ds' : List Int)
    (hb : lookupTeam t.teams c = some tm)
    (hlo : -9223372036854775808 ≤ tm.score) (hhi : tm.score < 9223372036854775808)
    (hperm : ds'.Perm ds) :
    (lookupTeam ((runAdjusts c t ds').teams) c).map Team.score
      = some (wrap64 (tm.score + ds.sum))
    ∧ (-9223372036854775808 ≤ tm.score + ds.sum → tm.score + ds.sum < 9223372036854775808 →
        (lookupTeam ((runAdjusts c t ds').teams) c).map Team.score
          = some (tm.score + ds.sum)) := by
  have hmain := runAdjusts_lookup c ds' t tm hb hlo hhi
  rw [hperm.sum_eq] at hmain
  exact ⟨hmain, fun k1 k2 => by rw [hmain, wrap64_eq_self _ k1 k2]⟩

/-- C2 (witness): adjustments `+5` and `-2` applied in either order from
initial score `0` give final score `3`. -/
theorem c2_amended_witness :
    (lookupTeam ((runAdjusts 1 ⟨[(1, ⟨redRole, 0⟩)]⟩ [-2, 5]).teams) 1).map Team.score
      = some 3 :=
  (c2_amended ⟨[(1, ⟨redRole, 0⟩)]⟩ 1 ⟨redRole, 0⟩ [5, -2] [-2, 5] rfl (by decide) (by decide)
    (by decide)).1

/-- C3: team creation is idempotent — re-creating on an existing channel is
a no-op that keeps the original group and score, a fresh creation binds the
group with score 0, and creation preserves the at-most-one-team-per-channel
invariant. -/
theorem c3_create_idempotent (t : Teams) (c : Nat) (g g2 : Role) (hwf : t.wf) :
    Teams.create_team (Teams.create_team t c g) c g2 = Teams.create_team t c g
    ∧ (Teams.create_team t c g).wf
    ∧ (lookupTeam t.teams c = none →
        (Teams.create_team t c g).get_team c = some { role := g, score := 0 })
    ∧ (∀ tm, lookupTeam t.teams c = some tm → Teams.create_team t c g = t) := by
  obtain ⟨tm, htm⟩ := lookupTeam_create_self t c g
  refine ⟨create_team_bound _ c g2 tm htm, ?_, ?_, fun tm' h => create_team_bound t c g tm' h⟩
  · cases h : lookupTeam t.teams c with
    | some tm2 =>
      rw [create_team_bound t c g tm2 h]
      exact hwf
    | none =>
      rw [create_team_fresh t c g h]
      simp only [Teams.wf, List.map_cons, List.nodup_cons]
      exact ⟨lookupTeam_none_not_mem t.teams c h, hwf⟩
  · intro h
    rw [create_team_fresh t c g h]
    simp [Teams.get_team, lookupTeam]

/-- C3 (witness): creating on channel 1 and then re-creating with a
different group leaves the registry as after the first creation. -/
theorem c3_create_idempotent_witness :
    Teams.create_team (Teams.create_team Teams.new 1 redRole) 1 blueRole
      = Teams.create_team Teams.new 1 redRole :=
  (c3_create_idempotent Teams.new 1 redRole blueRole (by simp [Teams.wf, Teams.new])).1

/-- C4 (counterexample): a host-authorized `team create` on a channel that
is already bound leaves the old binding (group "Red Team", score 7) in
place — the registry does not contain a team binding the channel to the
given group "Blue Team" with score 0 as the claim states — while the
response still reports creation. -/
theorem c4_counterexample :
    interaction_create ⟨some true, true, ""⟩ (some 99) ⟨[(1, ⟨redRole, 7⟩)]⟩
        (createInteraction 1 blueRole 5) =
      (⟨[(1, ⟨redRole, 7⟩)]⟩, Outcome.response "Created new team")
    ∧ Teams.get_team ⟨[(1, ⟨redRole, 7⟩)]⟩ 1 ≠ some { role := blueRole, score := 0 } :=
  ⟨rfl, by decide⟩

/-- C4 (amended): a non-host `team create` responds with the fixed
permission-denied message and leaves the registry unchanged; a host
`team create` responds "Created new team" and applies `create_team`, which
binds the given channel to the given group with score 0 when the channel
was unbound, and is a no-op (original binding kept, response unchanged)
when the channel was already bound. -/
theorem c4_amended (eo : Bool) (ee : String) (hostId gid c : Nat)
    (t : Teams) (g : Role) (b : Bool) :
    interaction_create ⟨some b, eo, ee⟩ (some hostId) t (createInteraction c g gid) =
      (if b then (Teams.create_team t c g, Outcome.response "Created new team")
        else (t, Outcome.response PERMISSION_DENIED))
    ∧ (lookupTeam t.teams c = none →
        (Teams.create_team t c g).get_team c = some { role := g, score := 0 })
    ∧ (∀ tm, lookupTeam t.teams c = some tm → Teams.create_team t c g = t) := by
  refine ⟨?_, ?_, fun tm h => create_team_bound t c g tm h⟩
  · cases b <;> rfl
  · intro h
    rw [create_team_fresh t c g h]
    simp [Teams.get_team, lookupTeam]

/-- C4 (witness): on an empty registry, a non-host creation is denied and
mutates nothing, and a host creation binds channel 1 to "Blue Team" with
score 0 and confirms. -/
theorem c4_amended_witness :
    interaction_create ⟨some false, true, ""⟩ (some 99) Teams.new (createInteraction 1 blueRole 5) =
      (Teams.new, Outcome.response PERMISSION_DENIED)
    ∧ interaction_create ⟨some true, true, ""⟩ (some 99) Teams.new (createInteraction 1 blueRole 5) =
      (⟨[(1, ⟨blueRole, 0⟩)]⟩, Outcome.response "Created new team") :=
  ⟨(c4_amended true "" 99 5 1 Teams.new blueRole false).1,
   (c4_amended true "" 99 5 1 Teams.new blueRole true).1⟩

/-- C5: an authorized `team score adjust` on a channel with no bound team
responds "Missing team, could not adjust" and leaves the registry
untouched; at the registry level, `adjust_score` on an unbound channel
reports absent and performs no mutation. -/
theorem c5_adjust_unbound (eo : Bool) (ee : String) (hostId gid c : Nat) (t : Teams) (d : Int)
    (h : lookupTeam t.teams c = none) :
    interaction_create ⟨some true, eo, ee⟩ (some hostId) t (adjustInteraction c gid d) =
      (t, Outcome.response "Missing team, could not adjust")
    ∧ Teams.adjust_score t c d = (t, none) := by
  constructor
  · show handle_adjust (some hostId) (some true) (some ()) (some gid) (some c) t
        [Opt.mk "amount" (some (OptValue.int d)) []]
      = (t, Outcome.response "Missing team, could not adjust")
    unfold handle_adjust
    simp only [h]
  · unfold Teams.adjust_score
    rw [h]

/-- C5 (witness): adjusting channel 1 on the empty registry reports the
missing team and changes nothing. -/
theorem c5_adjust_unbound_witness :
    interaction_create ⟨some true, true, ""⟩ (some 99) Teams.new (adjustInteraction 1 5 3) =
      (Teams.new, Outcome.response "Missing team, could not adjust") :=
  (c5_adjust_unbound true "" 99 5 1 Teams.new 3 rfl).1

/-- C6 (counterexample): the score is an `i64`; adjusting a bound team
whose score is `2 ^ 63 - 1` by `1` stores `-2 ^ 63` (wrap-around) and the
response reports that wrapped total, so the adjustment does not add exactly
the amount as the claim states. -/
theorem c6_counterexample :
    interaction_create ⟨some true, true, ""⟩ (some 99)
        ⟨[(1, ⟨redRole, 9223372036854775807⟩)]⟩ (adjustInteraction 1 5 1) =
      (⟨[(1, ⟨redRole, -9223372036854775808⟩)]⟩,
        Outcome.response "Team score adjusted by 1, score is now -9223372036854775808 in total")
    ∧ (-9223372036854775808 : Int) ≠ 9223372036854775807 + 1 :=
  ⟨rfl, by decide⟩

/-- C6 (amended): an authorized `team score adjust` with amount `d` on a
bound channel stores the team score plus `d` reduced into the `i64`
range by two-complement wrap — exactly `score + d` whenever that sum is
in range — and the response string reports the stored running total. -/
theorem c6_amended (eo : Bool) (ee : String) (hostId gid c : Nat) (t : Teams) (tm : Team)
    (d : Int) (hb : lookupTeam t.teams c = some tm) :
    interaction_create ⟨some true, eo, ee⟩ (some hostId) t (adjustInteraction c gid d) =
      (⟨replaceFirst t.teams c { tm with score := wrap64 (tm.score + d) }⟩,
        Outcome.response ("Team score adjusted by " ++ toString d ++ ", score is now "
          ++ toString (wrap64 (tm.score + d)) ++ " in total"))
    ∧ (-9223372036854775808 ≤ tm.score + d → tm.score + d < 9223372036854775808 →
        wrap64 (tm.score + d) = tm.score + d) := by
  refine ⟨?_, fun k1 k2 => wrap64_eq_self _ k1 k2⟩
  show handle_adjust (some hostId) (some true) (some ()) (some gid) (some c) t
      [Opt.mk "amount" (some (OptValue.int d)) []]
    = (⟨replaceFirst t.teams c { tm with score := wrap64 (tm.score + d) }⟩,
        Outcome.response ("Team score adjusted by " ++ toString d ++ ", score is now "
          ++ toString (wrap64 (tm.score + d)) ++ " in total"))
  unfold handle_adjust
  simp only [hb]
  rfl

/-- C6 (witness): adjusting a bound team from score 0 by `+5` stores 5 and
reports "score is now 5 in total". -/
theorem c6_amended_witness :
    interaction_create ⟨some true, true, ""⟩ (some 99) ⟨[(1, ⟨redRole, 0⟩)]⟩
        (adjustInteraction 1 5 5) =
      (⟨[(1, ⟨redRole, 5⟩)]⟩,
        Outcome.response "Team score adjusted by 5, score is now 5 in total") :=
  (c6_amended true "" 99 5 1 ⟨[(1, ⟨redRole, 0⟩)]⟩ ⟨redRole, 0⟩ 5 rfl).1

/-- C7: `team rename` and `team recolor` are not gated by host
authorization — the dispatch result is identical for any two values of the
host-role configuration and of the membership oracle, and whenever the
outcome is a response string it is never the fixed permission-denied
message. -/
theorem c7_rename_recolor_ungated (hb hb' : Option Bool) (eo : Bool) (ee : String)
    (hr hr' : Option Nat) (t : Teams) (sn : String) (res : Option OptValue)
    (os rest : List Opt) (chan gid : Option Nat) (mem : Option Unit)
    (hsn : sn = "rename" ∨ sn = "recolor") :
    interaction_create ⟨hb, eo, ee⟩ hr t
        ⟨.applicationCommand, some ⟨"team", Opt.mk sn res os :: rest⟩, chan, gid, mem⟩
      = interaction_create ⟨hb', eo, ee⟩ hr' t
        ⟨.applicationCommand, some ⟨"team", Opt.mk sn res os :: rest⟩, chan, gid, mem⟩
    ∧ ∀ s, (interaction_create ⟨hb, eo, ee⟩ hr t
        ⟨.applicationCommand, some ⟨"team", Opt.mk sn res os :: rest⟩, chan, gid, mem⟩).2
          = Outcome.response s → s ≠ PERMISSION_DENIED := by
  rcases hsn with h | h <;> subst h
  · exact ⟨rfl, fun s hs => handle_rename_ne_pd eo ee t chan os s hs⟩
  · exact ⟨rfl, fun s hs => handle_recolor_ne_pd eo ee t chan os s hs⟩

/-- C7 (witness): a `team rename` invocation dispatches to the same result
whether or not the actor is a host and whether or not a host role is even
configured. -/
theorem c7_rename_recolor_ungated_witness :
    interaction_create ⟨some true, true, ""⟩ (some 1) Teams.new
        ⟨.applicationCommand, some ⟨"team", [Opt.mk "rename" none []]⟩, none, none, none⟩
      = interaction_create ⟨some false, true, ""⟩ none Teams.new
        ⟨.applicationCommand, some ⟨"team", [Opt.mk "rename" none []]⟩, none, none, none⟩ :=
  (c7_rename_recolor_ungated (some true) (some false) true "" (some 1) none Teams.new
    "rename" none [] [] none none none (Or.inl rfl)).1

/-- C8 (counterexample): dispatching the unrecognized top-level command
"foo" returns the literal "Invalid command" with no registry mutation —
which differs from the claimed literal "Invalid command." (the source
string has no trailing period). -/
theorem c8_counterexample :
    interaction_create ⟨none, true, ""⟩ none Teams.new
        ⟨.applicationCommand, some ⟨"foo", []⟩, none, none, none⟩ =
      (Teams.new, Outcome.response "Invalid command")
    ∧ ("Invalid command" : String) ≠ "Invalid command." :=
  ⟨rfl, by decide⟩

/-- C8 (amended): dispatch of an invocation whose top-level command name is
none of "ping", "id", "team" returns the literal "Invalid command" (no
trailing period) and performs no registry mutation. -/
theorem c8_amended (env : Env) (hr : Option Nat) (t : Teams) (nm : String) (opts : List Opt)
    (chan gid : Option Nat) (mem : Option Unit)
    (h1 : nm ≠ "ping") (h2 : nm ≠ "id") (h3 : nm ≠ "team") :
    interaction_create env hr t ⟨.applicationCommand, some ⟨nm, opts⟩, chan, gid, mem⟩ =
      (t, Outcome.response "Invalid command") := by
  unfold interaction_create
  simp [h1, h2, h3]

/-- C8 (witness): the unrecognized name "pong" yields "Invalid command"
and leaves the registry unchanged. -/
theorem c8_amended_witness :
    interaction_create ⟨none, true, ""⟩ none Teams.new
        ⟨.applicationCommand, some ⟨"pong", []⟩, none, none, none⟩ =
      (Teams.new, Outcome.response "Invalid command") :=
  c8_amended ⟨none, true, ""⟩ none Teams.new "pong" [] none none none
    (by decide) (by decide) (by decide)

/-- C10 (counterexample): the score is a 64-bit signed integer, not of
unbounded magnitude — adjusting a team whose score is `-2 ^ 63` by `-1`
wraps to `2 ^ 63 - 1` instead of the mathematical sum `-2 ^ 63 - 1`. -/
theorem c10_counterexample :
    (Teams.adjust_score ⟨[(1, ⟨redRole, -9223372036854775808⟩)]⟩ 1 (-1)).2 =
      some ⟨redRole, 9223372036854775807⟩
    ∧ (9223372036854775807 : Int) ≠ -9223372036854775808 + -1 :=
  ⟨rfl, by decide⟩

/-- C10 (amended): the score of a team is a 64-bit signed integer initialized to
0 at creation; an adjustment by `d` stores `score + d` reduced into
`[-2 ^ 63, 2 ^ 63)` by two-complement wrap, which equals the exact
mathematical sum whenever that sum is in range, and the stored score always
stays within the `i64` bounds. -/
theorem c10_amended :
    (∀ (t : Teams) (c : Nat) (g : Role), lookupTeam t.teams c = none →
        (Teams.create_team t c g).get_team c = some { role := g, score := 0 })
    ∧ (∀ (t : Teams) (c : Nat) (tm : Team) (d : Int), lookupTeam t.teams c = some tm →
        (Teams.adjust_score t c d).2 = some { tm with score := wrap64 (tm.score + d) }
        ∧ (-9223372036854775808 ≤ tm.score + d → tm.score + d < 9223372036854775808 →
            wrap64 (tm.score + d) = tm.score + d)
        ∧ -9223372036854775808 ≤ wrap64 (tm.score + d)
        ∧ wrap64 (tm.score + d) < 9223372036854775808) := by
  constructor
  · intro t c g h
    rw [create_team_fresh t c g h]
    simp [Teams.get_team, lookupTeam]
  · intro t c tm d h
    refine ⟨?_, fun k1 k2 => wrap64_eq_self _ k1 k2,
      (wrap64_bounds (tm.score + d)).1, (wrap64_bounds (tm.score + d)).2⟩
    unfold Teams.adjust_score
    simp only [h]

/-- C10 (witness): creating a team on a fresh channel initializes its score
to 0. -/
theorem c10_amended_witness :
    (Teams.create_team Teams.new 1 redRole).get_team 1 = some { role := redRole, score := 0 } :=
  c10_amended.1 Teams.new 1 redRole rfl
